import Mathlib

/-!
Verification of the two mocked AWS Lambda tool handlers of the ACDF agent
repository: `CostAnomalyChecker` (the spec's AnomalyLookupHandler) and
`NovaActExecutor` (the spec's TriageActionHandler), both from
`lambda-functions/.../index.py` as laid out in `src/main.py`.

Modelling choices, stated once:
* A parsed JSON body is modelled as an association list from string keys to
  string values; every parameter the handlers read (`anomaly_id`,
  `resource_arn`, `triage_policy_name`) is a string in the source's data.
* The flat Python dicts the handlers build (mock records, error payloads,
  SDK results) are association lists from string keys to `PyVal` (a string
  or a numeric literal kept as the text Python prints for it: the float
  literals `450.75` and `980.50` print as `450.75` and `980.5`).
* `json.loads` on the raw body string is abstracted by `BodyContent`: an
  event's body either parses to a field list or is `malformed`, carrying the
  decode-error message `str(e)` would show; `json.dumps` is implemented
  concretely as `dumps` (ensure_ascii escaping included).
* Python exceptions inside the `try` blocks (KeyError on a missing envelope
  key, a JSON decode error) become the `PyExc` error of an `Except`; the
  top-level `except Exception` clause is the `match` wrapping each
  `handlerTryWith` into `lambda_handler`.
* `time.sleep(2)` inside `invoke_nova_act_sdk` has no value-level effect; to
  reason about whether the simulated automation step runs at all,
  `NovaActExecutor.runHandler` also returns the list of SDK invocations
  (argument pairs) the call performed.
-/

namespace ACDF

/-- A value of one of the flat Python dicts the handlers build: a string, or
a number kept as the text Python's `str`/`json.dumps` prints for it. -/
inductive PyVal where
  | str (s : String)
  | num (lit : String)
deriving DecidableEq

/-- A flat Python dict with string keys, as an association list. -/
abbrev PyObj := List (String × PyVal)

/-- Python `str()` of a `PyVal` as used inside an f-string. -/
def PyVal.pyStr : PyVal → String
  | .str s => s
  | .num lit => lit

/-- Lowercase hexadecimal digit. -/
def hexDigit (n : Nat) : Char :=
  if n < 10 then Char.ofNat (48 + n) else Char.ofNat (87 + n)

/-- Four lowercase hex digits, as in a JSON `\uXXXX` escape. -/
def hex4 (n : Nat) : String :=
  String.mk [hexDigit (n / 4096 % 16), hexDigit (n / 256 % 16),
             hexDigit (n / 16 % 16), hexDigit (n % 16)]

/-- Escape of one character inside a JSON string literal, following
Python's `json.dumps` with its default `ensure_ascii=True`. -/
def escapeChar (c : Char) : String :=
  if c.toNat = 34 then "\\\""
  else if c.toNat = 92 then "\\\\"
  else if c.toNat = 10 then "\\n"
  else if c.toNat = 9 then "\\t"
  else if c.toNat = 13 then "\\r"
  else if c.toNat = 8 then "\\b"
  else if c.toNat = 12 then "\\f"
  else if c.toNat < 32 ∨ 127 ≤ c.toNat then
    if 65536 ≤ c.toNat then
      "\\u" ++ hex4 (55296 + (c.toNat - 65536) / 1024) ++
      "\\u" ++ hex4 (56320 + (c.toNat - 65536) % 1024)
    else
      "\\u" ++ hex4 c.toNat
  else
    String.singleton c

/-- Escape of a whole string for a JSON string literal. -/
def jsonEscape (s : String) : String :=
  String.join (s.toList.map escapeChar)

/-- A JSON string literal: quotes around the escaped text. -/
def jsonQuote (s : String) : String :=
  "\"" ++ jsonEscape s ++ "\""

/-- Serialization of one `PyVal` as `json.dumps` prints it. -/
def dumpVal : PyVal → String
  | .str s => jsonQuote s
  | .num lit => lit

/-- Python `json.dumps` of a flat dict, with the default separators
`", "` and `": "`. -/
def dumps (d : PyObj) : String :=
  "\x7b" ++ String.intercalate ", " (d.map fun kv => jsonQuote kv.1 ++ ": " ++ dumpVal kv.2) ++ "\x7d"

/-- Python dict `.get(k)`: the first value stored under `k`, if any. -/
def PyObj.get? (d : PyObj) (k : String) : Option PyVal :=
  (d.find? (fun kv => kv.1 = k)).map (fun kv => kv.2)

/-- Python `k in d` for a dict. -/
def PyObj.hasKey (d : PyObj) (k : String) : Bool :=
  d.any (fun kv => kv.1 = k)

/-- The Python exceptions the handlers' `try` blocks can raise. -/
inductive PyExc where
  | keyError (key : String)
  | jsonDecodeError (msg : String)
deriving DecidableEq

/-- Python `str(e)` for a caught exception: `str(KeyError(k))` is the key in
single quotes, a decode error prints its message. -/
def PyExc.str : PyExc → String
  | .keyError k => "\x27" ++ k ++ "\x27"
  | .jsonDecodeError msg => msg

/-- Python dict `d[k]`: the value under `k`, or a raised `KeyError`. -/
def PyObj.getItem (d : PyObj) (k : String) : Except PyExc PyVal :=
  match d.get? k with
  | some v => Except.ok v
  | none => Except.error (PyExc.keyError k)

/-- Outcome of `json.loads` on the raw `body` string of an event: either the
parsed field list, or `malformed` with the decode-error message. -/
inductive BodyContent where
  | malformed (msg : String)
  | parsed (fields : List (String × String))
deriving DecidableEq

/-- The invocation envelope a handler receives. A `none` field models a key
absent from the event dict, whose access raises `KeyError`. -/
structure Event where
  body : Option BodyContent
  actionGroup : Option String
  function : Option String
deriving DecidableEq

/-- The response envelope: `{'body': <JSON-encoded string>}` is the single
field either handler ever returns. -/
structure Response where
  body : String
deriving DecidableEq

/-- Python `json.loads(event['body'])` on the modelled body content. -/
def loads : BodyContent → Except PyExc (List (String × String))
  | .malformed msg => Except.error (PyExc.jsonDecodeError msg)
  | .parsed fields => Except.ok fields

/-- Parsed-body `.get(k)`: the parameter stored under `k`, if present. -/
def bodyGet (fields : List (String × String)) (k : String) : Option String :=
  (fields.find? (fun kv => kv.1 = k)).map (fun kv => kv.2)

namespace CostAnomalyChecker

/-- The static mock table of `mock_dynamodb_query`, keyed by anomaly id.
The float literals `450.75` and `980.50` are kept as the text Python prints
for them (`str(980.50)` is `980.5`). -/
def mock_data : List (String × PyObj) :=
  [("DB-001",
    [("ResourceARN", PyVal.str "arn:aws:dynamodb:us-west-2:123456789012:table/HighCostTableA"),
     ("AnomalyType", PyVal.str "DynamoDB-Capacity"),
     ("CostImpactUSD", PyVal.num "450.75"),
     ("Service", PyVal.str "DynamoDB")]),
   ("S3-005",
    [("ResourceARN", PyVal.str "arn:aws:s3:::customer-data-lake-prod"),
     ("AnomalyType", PyVal.str "S3-HighOps"),
     ("CostImpactUSD", PyVal.num "980.5"),
     ("Service", PyVal.str "S3")])]

/-- Body of `mock_dynamodb_query`, generalized over the static table so that
independence from the table can be stated; `mock_dynamodb_query` instantiates
it with `mock_data`, exactly as the source reads its module-level literal. -/
def mock_dynamodb_queryWith (data : List (String × PyObj)) (anomaly_id : String) : PyObj :=
  match (data.find? (fun kv => kv.1 = anomaly_id)).map (fun kv => kv.2) with
  | some rec => rec
  | none => [("Error", PyVal.str "Anomaly not found")]

/-- Python `mock_dynamodb_query(anomaly_id)`: `mock_data.get(anomaly_id,
{"Error": "Anomaly not found"})`. -/
def mock_dynamodb_query (anomaly_id : String) : PyObj :=
  mock_dynamodb_queryWith mock_data anomaly_id

/-- The `try` block of the CostAnomalyChecker `lambda_handler`, generalized
over the static table. Each Python `return` is `Except.ok`; each uncaught
access failure is `Except.error`. The check `if not anomaly_id` is false for
a missing key and for the empty string. -/
def handlerTryWith (data : List (String × PyObj)) (event : Event) : Except PyExc Response :=
  match event.body with
  | none => Except.error (PyExc.keyError "body")
  | some rawBody =>
  match loads rawBody with
  | Except.error e => Except.error e
  | Except.ok event_body =>
  match event.actionGroup with
  | none => Except.error (PyExc.keyError "actionGroup")
  | some _action_name =>
  match event.function with
  | none => Except.error (PyExc.keyError "function")
  | some function_name =>
  if function_name = "get_anomaly_details" then
    match bodyGet event_body "anomaly_id" with
    | none => Except.ok ⟨dumps [("error", PyVal.str "Missing required parameter: anomaly_id")]⟩
    | some anomaly_id =>
      if anomaly_id = "" then
        Except.ok ⟨dumps [("error", PyVal.str "Missing required parameter: anomaly_id")]⟩
      else
        let anomaly_details := mock_dynamodb_queryWith data anomaly_id
        if anomaly_details.hasKey "Error" then
          match anomaly_details.getItem "Error" with
          | Except.error e => Except.error e
          | Except.ok errVal =>
            Except.ok ⟨dumps [("result", PyVal.str ("ERROR: " ++ errVal.pyStr))]⟩
        else
          match anomaly_details.getItem "ResourceARN" with
          | Except.error e => Except.error e
          | Except.ok arnVal =>
          match anomaly_details.getItem "AnomalyType" with
          | Except.error e => Except.error e
          | Except.ok typeVal =>
          match anomaly_details.getItem "CostImpactUSD" with
          | Except.error e => Except.error e
          | Except.ok impactVal =>
            Except.ok ⟨dumps [("details", PyVal.str
              ("Anomaly found: ResourceARN=" ++ arnVal.pyStr ++
               ", Type=" ++ typeVal.pyStr ++ ", Impact=" ++ impactVal.pyStr))]⟩
  else
    Except.ok ⟨dumps [("error", PyVal.str ("Unknown function: " ++ function_name))]⟩

/-- The `try` block of `lambda_handler` over the source's own table. -/
def handlerTry (event : Event) : Except PyExc Response :=
  handlerTryWith mock_data event

/-- The full CostAnomalyChecker `lambda_handler`, generalized over the static
table: the `except Exception` clause turns a raised exception into the
`{'error': str(e)}` envelope. -/
def lambda_handlerWith (data : List (String × PyObj)) (event : Event) : Response :=
  match handlerTryWith data event with
  | Except.ok r => r
  | Except.error e => ⟨dumps [("error", PyVal.str e.str)]⟩

/-- The CostAnomalyChecker `lambda_handler` of the source. -/
def lambda_handler (event : Event) : Response :=
  lambda_handlerWith mock_data event

end CostAnomalyChecker

namespace NovaActExecutor

/-- Python `invoke_nova_act_sdk(resource_arn, policy_name)`: the dict the
mocked SDK call returns (its `time.sleep(2)` has no value-level effect). -/
def invoke_nova_act_sdk (resource_arn policy_name : String) : PyObj :=
  [("status", PyVal.str "SUCCESS"),
   ("message", PyVal.str
     ("Nova Act SDK successfully executed complex UI automation: Policy \x27" ++
      policy_name ++
      "\x27 has been temporarily applied to the resource or its associated role/user (" ++
      resource_arn ++ ") for triage."))]

/-- The `try` block of the NovaActExecutor `lambda_handler`. Besides the
response, it returns the list of `invoke_nova_act_sdk` calls (with their
arguments) the execution performs, so that non-execution of the simulated
automation step (and its delay) is statable. The Python guard
`if not resource_arn or not policy_name` is taken when either parameter is
absent or the empty string. -/
def handlerTry (event : Event) : Except PyExc (Response × List (String × String)) :=
  match event.body with
  | none => Except.error (PyExc.keyError "body")
  | some rawBody =>
  match loads rawBody with
  | Except.error e => Except.error e
  | Except.ok event_body =>
  match event.actionGroup with
  | none => Except.error (PyExc.keyError "actionGroup")
  | some _action_name =>
  match event.function with
  | none => Except.error (PyExc.keyError "function")
  | some function_name =>
  if function_name = "apply_triage_policy" then
    match bodyGet event_body "resource_arn", bodyGet event_body "triage_policy_name" with
    | some resource_arn, some policy_name =>
      if resource_arn = "" ∨ policy_name = "" then
        Except.ok (⟨dumps [("error", PyVal.str "Missing required parameters for triage.")]⟩, [])
      else
        Except.ok (⟨dumps (invoke_nova_act_sdk resource_arn policy_name)⟩,
                   [(resource_arn, policy_name)])
    | _, _ =>
      Except.ok (⟨dumps [("error", PyVal.str "Missing required parameters for triage.")]⟩, [])
  else
    Except.ok (⟨dumps [("error", PyVal.str ("Unknown function: " ++ function_name))]⟩, [])

/-- The full NovaActExecutor `lambda_handler` together with the list of SDK
invocations it performed: the `except Exception` clause turns a raised
exception into the `{'error': str(e)}` envelope, performing no SDK call. -/
def runHandler (event : Event) : Response × List (String × String) :=
  match handlerTry event with
  | Except.ok rp => rp
  | Except.error e => (⟨dumps [("error", PyVal.str e.str)]⟩, [])

/-- The NovaActExecutor `lambda_handler` of the source. -/
def lambda_handler (event : Event) : Response :=
  (runHandler event).1

/-- The `invoke_nova_act_sdk` calls (argument pairs) an invocation performs. -/
def sdkCalls (event : Event) : List (String × String) :=
  (runHandler event).2

end NovaActExecutor

/-- Substring containment: `pat` occurs contiguously inside `s`. -/
def ContainsSubstr (s pat : String) : Prop :=
  ∃ pre post, s = pre ++ pat ++ post

/-- Every `Except.ok` response the CostAnomalyChecker `try` block produces is
the serialization of some flat JSON object. -/
theorem cacOkShape (data : List (String × PyObj)) (e : Event) (r : Response)
    (h : CostAnomalyChecker.handlerTryWith data e = Except.ok r) :
    ∃ p : PyObj, r = ⟨dumps p⟩ := by
  unfold CostAnomalyChecker.handlerTryWith at h
  repeat' first
    | split at h
    | dsimp only at h
  all_goals first
    | exact Except.noConfusion h
    | (injection h with h; exact ⟨_, h.symm⟩)

/-- Every `Except.ok` response the NovaActExecutor `try` block produces is
the serialization of some flat JSON object. -/
theorem novaOkShape (e : Event) (r : Response × List (String × String))
    (h : NovaActExecutor.handlerTry e = Except.ok r) :
    ∃ p : PyObj, r.1 = ⟨dumps p⟩ := by
  unfold NovaActExecutor.handlerTry at h
  repeat' split at h
  all_goals try cases h
  all_goals exact ⟨_, rfl⟩

/-- C1: for every input event, each of the two handlers returns normally a
response whose sole field `body` is a JSON-encoded string (the serialization
of some flat object), and whenever the `try` block raises an exception the
returned body is exactly the uniform error envelope
`{error: str(e)}` instead of a propagated fault. -/
theorem c1_uniform_json_response (e : Event) :
    (∃ p : PyObj, CostAnomalyChecker.lambda_handler e = ⟨dumps p⟩) ∧
    (∃ q : PyObj, NovaActExecutor.lambda_handler e = ⟨dumps q⟩) ∧
    (∀ exc : PyExc, CostAnomalyChecker.handlerTry e = Except.error exc →
      CostAnomalyChecker.lambda_handler e = ⟨dumps [("error", PyVal.str exc.str)]⟩) ∧
    (∀ exc : PyExc, NovaActExecutor.handlerTry e = Except.error exc →
      NovaActExecutor.lambda_handler e = ⟨dumps [("error", PyVal.str exc.str)]⟩) := by
  refine ⟨?_, ?_, ?_, ?_⟩
  · rcases hq : CostAnomalyChecker.handlerTryWith CostAnomalyChecker.mock_data e with exc | r
    · exact ⟨[("error", PyVal.str exc.str)],
        by simp [CostAnomalyChecker.lambda_handler, CostAnomalyChecker.lambda_handlerWith, hq]⟩
    · obtain ⟨p, hp⟩ := cacOkShape CostAnomalyChecker.mock_data e r hq
      exact ⟨p,
        by simp [CostAnomalyChecker.lambda_handler, CostAnomalyChecker.lambda_handlerWith, hq, hp]⟩
  · rcases hq : NovaActExecutor.handlerTry e with exc | rp
    · exact ⟨[("error", PyVal.str exc.str)],
        by simp [NovaActExecutor.lambda_handler, NovaActExecutor.runHandler, hq]⟩
    · obtain ⟨p, hp⟩ := novaOkShape e rp hq
      exact ⟨p, by simp [NovaActExecutor.lambda_handler, NovaActExecutor.runHandler, hq, hp]⟩
  · intro exc h
    unfold CostAnomalyChecker.handlerTry at h
    simp [CostAnomalyChecker.lambda_handler, CostAnomalyChecker.lambda_handlerWith, h]
  · intro exc h
    simp [NovaActExecutor.lambda_handler, NovaActExecutor.runHandler, h]

/-- C2: for every valid known anomaly identifier (one carried by the static
table), invoking the CostAnomalyChecker with function `get_anomaly_details`
returns a `details` envelope whose string contains the exact
`ResourceARN=<resource>` and `Type=<category>` of that identifier's record. -/
theorem c2_known_id_details (ag aid : String) (fields : List (String × String))
    (rec : PyObj) (arnV tyV : PyVal)
    (hid : bodyGet fields "anomaly_id" = some aid)
    (hrec : (CostAnomalyChecker.mock_data.find? (fun kv => kv.1 = aid)).map (fun kv => kv.2)
      = some rec)
    (harn : rec.get? "ResourceARN" = some arnV)
    (hty : rec.get? "AnomalyType" = some tyV) :
    ∃ d : String,
      CostAnomalyChecker.lambda_handler ⟨some (.parsed fields), some ag, some "get_anomaly_details"⟩
        = ⟨dumps [("details", PyVal.str d)]⟩ ∧
      ContainsSubstr d ("ResourceARN=" ++ arnV.pyStr) ∧
      ContainsSubstr d ("Type=" ++ tyV.pyStr) := by
  by_cases hd : aid = "DB-001"
  · subst hd
    simp [CostAnomalyChecker.mock_data, List.find?] at hrec
    subst hrec
    simp [PyObj.get?, List.find?] at harn hty
    subst harn
    subst hty
    refine ⟨"Anomaly found: ResourceARN=arn:aws:dynamodb:us-west-2:123456789012:table/HighCostTableA, Type=DynamoDB-Capacity, Impact=450.75", ?_, ?_, ?_⟩
    · simp [CostAnomalyChecker.lambda_handler, CostAnomalyChecker.lambda_handlerWith,
            CostAnomalyChecker.handlerTryWith, loads, hid,
            CostAnomalyChecker.mock_dynamodb_queryWith, CostAnomalyChecker.mock_data,
            List.find?, PyObj.hasKey, PyObj.getItem, PyObj.get?, PyVal.pyStr]
    · exact ⟨"Anomaly found: ", ", Type=DynamoDB-Capacity, Impact=450.75", by decide⟩
    · exact ⟨"Anomaly found: ResourceARN=arn:aws:dynamodb:us-west-2:123456789012:table/HighCostTableA, ",
        ", Impact=450.75", by decide⟩
  by_cases hs : aid = "S3-005"
  · subst hs
    simp [CostAnomalyChecker.mock_data, List.find?] at hrec
    subst hrec
    simp [PyObj.get?, List.find?] at harn hty
    subst harn
    subst hty
    refine ⟨"Anomaly found: ResourceARN=arn:aws:s3:::customer-data-lake-prod, Type=S3-HighOps, Impact=980.5", ?_, ?_, ?_⟩
    · simp [CostAnomalyChecker.lambda_handler, CostAnomalyChecker.lambda_handlerWith,
            CostAnomalyChecker.handlerTryWith, loads, hid,
            CostAnomalyChecker.mock_dynamodb_queryWith, CostAnomalyChecker.mock_data,
            List.find?, PyObj.hasKey, PyObj.getItem, PyObj.get?, PyVal.pyStr]
    · exact ⟨"Anomaly found: ", ", Type=S3-HighOps, Impact=980.5", by decide⟩
    · exact ⟨"Anomaly found: ResourceARN=arn:aws:s3:::customer-data-lake-prod, ",
        ", Impact=980.5", by decide⟩
  · exfalso
    simp [CostAnomalyChecker.mock_data, List.find?, Ne.symm hd, Ne.symm hs] at hrec

/-- C2 witness at identifier DB-001: the details string contains the exact
ARN and category the claim names. -/
theorem c2_witness :
    ∃ d : String,
      CostAnomalyChecker.lambda_handler
          ⟨some (.parsed [("anomaly_id", "DB-001")]), some "CostAnomalyActionGroup",
           some "get_anomaly_details"⟩
        = ⟨dumps [("details", PyVal.str d)]⟩ ∧
      ContainsSubstr d "ResourceARN=arn:aws:dynamodb:us-west-2:123456789012:table/HighCostTableA" ∧
      ContainsSubstr d "Type=DynamoDB-Capacity" := by
  obtain ⟨d, h1, h2, h3⟩ := c2_known_id_details "CostAnomalyActionGroup" "DB-001"
    [("anomaly_id", "DB-001")]
    [("ResourceARN", PyVal.str "arn:aws:dynamodb:us-west-2:123456789012:table/HighCostTableA"),
     ("AnomalyType", PyVal.str "DynamoDB-Capacity"),
     ("CostImpactUSD", PyVal.num "450.75"),
     ("Service", PyVal.str "DynamoDB")]
    (PyVal.str "arn:aws:dynamodb:us-west-2:123456789012:table/HighCostTableA")
    (PyVal.str "DynamoDB-Capacity") rfl (by decide) (by decide) (by decide)
  exact ⟨d, h1, h2, h3⟩

/-- C3: a present, non-empty anomaly identifier with no record in the static
table yields the inner payload `{result: "ERROR: Anomaly not found"}` (keyed
`result`, not `error`). -/
theorem c3_unknown_id_not_found (ag aid : String) (fields : List (String × String))
    (hid : bodyGet fields "anomaly_id" = some aid)
    (hne : aid ≠ "") (h1 : aid ≠ "DB-001") (h2 : aid ≠ "S3-005") :
    CostAnomalyChecker.lambda_handler ⟨some (.parsed fields), some ag, some "get_anomaly_details"⟩
      = ⟨dumps [("result", PyVal.str "ERROR: Anomaly not found")]⟩ := by
  simp [CostAnomalyChecker.lambda_handler, CostAnomalyChecker.lambda_handlerWith,
        CostAnomalyChecker.handlerTryWith, loads, hid, hne,
        CostAnomalyChecker.mock_dynamodb_queryWith, CostAnomalyChecker.mock_data,
        List.find?, Ne.symm h1, Ne.symm h2, PyObj.hasKey, PyObj.getItem, PyObj.get?,
        PyVal.pyStr]

/-- C3 witness at the unknown identifier X-999. -/
theorem c3_witness :
    CostAnomalyChecker.lambda_handler
        ⟨some (.parsed [("anomaly_id", "X-999")]), some "CostAnomalyActionGroup",
         some "get_anomaly_details"⟩
      = ⟨dumps [("result", PyVal.str "ERROR: Anomaly not found")]⟩ :=
  c3_unknown_id_not_found "CostAnomalyActionGroup" "X-999" [("anomaly_id", "X-999")]
    rfl (by decide) (by decide) (by decide)

/-- C4: an absent or empty `anomaly_id` yields the error envelope
`{error: "Missing required parameter: anomaly_id"}` without consulting the
static table at all: the result is the same for every table `data`
(`lambda_handler` is `lambda_handlerWith mock_data`). -/
theorem c4_missing_anomaly_id (data : List (String × PyObj)) (ag : String)
    (fields : List (String × String))
    (hmiss : bodyGet fields "anomaly_id" = none ∨ bodyGet fields "anomaly_id" = some "") :
    CostAnomalyChecker.lambda_handlerWith data
        ⟨some (.parsed fields), some ag, some "get_anomaly_details"⟩
      = ⟨dumps [("error", PyVal.str "Missing required parameter: anomaly_id")]⟩ := by
  rcases hmiss with h | h <;>
    simp [CostAnomalyChecker.lambda_handlerWith, CostAnomalyChecker.handlerTryWith, loads, h]

/-- C4 witness: an empty table and a body with no `anomaly_id`. -/
theorem c4_witness :
    CostAnomalyChecker.lambda_handlerWith []
        ⟨some (.parsed []), some "CostAnomalyActionGroup", some "get_anomaly_details"⟩
      = ⟨dumps [("error", PyVal.str "Missing required parameter: anomaly_id")]⟩ :=
  c4_missing_anomaly_id [] "CostAnomalyActionGroup" [] (Or.inl rfl)

/-- C5: with both `resource_arn` and `triage_policy_name` present and
non-empty, the NovaActExecutor's inner payload has status `SUCCESS` and a
message containing both parameter values. -/
theorem c5_triage_success (ag arn pol : String) (fields : List (String × String))
    (harn : bodyGet fields "resource_arn" = some arn)
    (hpol : bodyGet fields "triage_policy_name" = some pol)
    (hne1 : arn ≠ "") (hne2 : pol ≠ "") :
    ∃ msg : String,
      NovaActExecutor.lambda_handler ⟨some (.parsed fields), some ag, some "apply_triage_policy"⟩
        = ⟨dumps [("status", PyVal.str "SUCCESS"), ("message", PyVal.str msg)]⟩ ∧
      ContainsSubstr msg arn ∧ ContainsSubstr msg pol := by
  refine ⟨"Nova Act SDK successfully executed complex UI automation: Policy \x27" ++ pol ++
    "\x27 has been temporarily applied to the resource or its associated role/user (" ++
    arn ++ ") for triage.", ?_, ?_, ?_⟩
  · simp [NovaActExecutor.lambda_handler, NovaActExecutor.runHandler, NovaActExecutor.handlerTry,
          loads, harn, hpol, hne1, hne2, NovaActExecutor.invoke_nova_act_sdk]
  · exact ⟨"Nova Act SDK successfully executed complex UI automation: Policy \x27" ++ pol ++
      "\x27 has been temporarily applied to the resource or its associated role/user (",
      ") for triage.", rfl⟩
  · exact ⟨"Nova Act SDK successfully executed complex UI automation: Policy \x27",
      "\x27 has been temporarily applied to the resource or its associated role/user (" ++
        arn ++ ") for triage.", by simp [String.append_assoc]⟩

/-- C5 witness at the spec's example ARN and policy name. -/
theorem c5_witness :
    ∃ msg : String,
      NovaActExecutor.lambda_handler
          ⟨some (.parsed [("resource_arn", "arn:aws:s3:::bucket"),
                          ("triage_policy_name", "DenyAll")]),
           some "TriageActionGroup", some "apply_triage_policy"⟩
        = ⟨dumps [("status", PyVal.str "SUCCESS"), ("message", PyVal.str msg)]⟩ ∧
      ContainsSubstr msg "arn:aws:s3:::bucket" ∧ ContainsSubstr msg "DenyAll" :=
  c5_triage_success "TriageActionGroup" "arn:aws:s3:::bucket" "DenyAll"
    [("resource_arn", "arn:aws:s3:::bucket"), ("triage_policy_name", "DenyAll")]
    rfl rfl (by decide) (by decide)

/-- C6: with `resource_arn` or `triage_policy_name` absent or empty, the
NovaActExecutor returns `{error: "Missing required parameters for triage."}`
and performs no `invoke_nova_act_sdk` call (so no simulated delay). -/
theorem c6_missing_triage_params (ag : String) (fields : List (String × String))
    (hmiss : bodyGet fields "resource_arn" = none ∨ bodyGet fields "resource_arn" = some "" ∨
      bodyGet fields "triage_policy_name" = none ∨
      bodyGet fields "triage_policy_name" = some "") :
    NovaActExecutor.lambda_handler ⟨some (.parsed fields), some ag, some "apply_triage_policy"⟩
      = ⟨dumps [("error", PyVal.str "Missing required parameters for triage.")]⟩ ∧
    NovaActExecutor.sdkCalls ⟨some (.parsed fields), some ag, some "apply_triage_policy"⟩ = [] := by
  have key : NovaActExecutor.runHandler
      ⟨some (.parsed fields), some ag, some "apply_triage_policy"⟩
      = (⟨dumps [("error", PyVal.str "Missing required parameters for triage.")]⟩, []) := by
    rcases hp : bodyGet fields "resource_arn" with _ | a <;>
      rcases hq : bodyGet fields "triage_policy_name" with _ | b <;>
      rcases hmiss with h | h | h | h <;>
      simp_all [NovaActExecutor.runHandler, NovaActExecutor.handlerTry, loads]
  constructor
  · show (NovaActExecutor.runHandler _).1 = _
    rw [key]
  · show (NovaActExecutor.runHandler _).2 = _
    rw [key]

/-- C6 witness: `triage_policy_name` omitted. -/
theorem c6_witness :
    NovaActExecutor.lambda_handler
        ⟨some (.parsed [("resource_arn", "arn:aws:s3:::bucket")]), some "TriageActionGroup",
         some "apply_triage_policy"⟩
      = ⟨dumps [("error", PyVal.str "Missing required parameters for triage.")]⟩ ∧
    NovaActExecutor.sdkCalls
        ⟨some (.parsed [("resource_arn", "arn:aws:s3:::bucket")]), some "TriageActionGroup",
         some "apply_triage_policy"⟩ = [] :=
  c6_missing_triage_params "TriageActionGroup" [("resource_arn", "arn:aws:s3:::bucket")]
    (Or.inr (Or.inr (Or.inl rfl)))

/-- C7: a well-formed envelope whose `function` is not the handler's single
recognized operation yields `{error: "Unknown function: <name>"}` from that
handler. -/
theorem c7_unknown_function (ag fn : String) (fields : List (String × String)) :
    (fn ≠ "get_anomaly_details" →
      CostAnomalyChecker.lambda_handler ⟨some (.parsed fields), some ag, some fn⟩
        = ⟨dumps [("error", PyVal.str ("Unknown function: " ++ fn))]⟩) ∧
    (fn ≠ "apply_triage_policy" →
      NovaActExecutor.lambda_handler ⟨some (.parsed fields), some ag, some fn⟩
        = ⟨dumps [("error", PyVal.str ("Unknown function: " ++ fn))]⟩) := by
  constructor <;> intro h <;>
    simp [CostAnomalyChecker.lambda_handler, CostAnomalyChecker.lambda_handlerWith,
          CostAnomalyChecker.handlerTryWith, NovaActExecutor.lambda_handler,
          NovaActExecutor.runHandler, NovaActExecutor.handlerTry, loads, h]

/-- C8: the anomaly lookup and the whole CostAnomalyChecker handler are pure
and deterministic: the static table is a fixed literal that no invocation
creates, mutates or deletes, so equal identifiers give equal lookup results
and equal events give equal responses. -/
theorem c8_lookup_pure_deterministic (a₁ a₂ : String) (e₁ e₂ : Event)
    (ha : a₁ = a₂) (he : e₁ = e₂) :
    CostAnomalyChecker.mock_dynamodb_query a₁ = CostAnomalyChecker.mock_dynamodb_query a₂ ∧
    CostAnomalyChecker.lambda_handler e₁ = CostAnomalyChecker.lambda_handler e₂ := by
  subst ha
  subst he
  exact ⟨rfl, rfl⟩

/-- C8 witness: two equal invocations at DB-001 and at a concrete event. -/
theorem c8_witness :
    CostAnomalyChecker.mock_dynamodb_query "DB-001"
      = CostAnomalyChecker.mock_dynamodb_query "DB-001" ∧
    CostAnomalyChecker.lambda_handler ⟨none, none, none⟩
      = CostAnomalyChecker.lambda_handler ⟨none, none, none⟩ :=
  c8_lookup_pure_deterministic "DB-001" "DB-001" ⟨none, none, none⟩ ⟨none, none, none⟩ rfl rfl

/-- C9: the identifiers whose lookup result carries no `Error` sentinel key,
so that the handler's not-found branch is skipped, are exactly DB-001 and
S3-005; every other identifier's lookup result contains the `Error` key. -/
theorem c9_found_set_exact (aid : String) :
    (CostAnomalyChecker.mock_dynamodb_query aid).hasKey "Error" = false ↔
      aid = "DB-001" ∨ aid = "S3-005" := by
  by_cases h1 : aid = "DB-001"
  · subst h1
    decide
  by_cases h2 : aid = "S3-005"
  · subst h2
    decide
  · simp [CostAnomalyChecker.mock_dynamodb_query, CostAnomalyChecker.mock_dynamodb_queryWith,
          CostAnomalyChecker.mock_data, PyObj.hasKey, List.find?, Ne.symm h1, Ne.symm h2,
          h1, h2]

/-- C10: neither handler's response depends on the value stored under
`actionGroup`: two events that both carry the key and agree elsewhere get
identical responses from both handlers. -/
theorem c10_actionGroup_unused (b : Option BodyContent) (fn : Option String) (ag₁ ag₂ : String) :
    CostAnomalyChecker.lambda_handler ⟨b, some ag₁, fn⟩
      = CostAnomalyChecker.lambda_handler ⟨b, some ag₂, fn⟩ ∧
    NovaActExecutor.lambda_handler ⟨b, some ag₁, fn⟩
      = NovaActExecutor.lambda_handler ⟨b, some ag₂, fn⟩ := by
  rcases b with _ | bc
  · exact ⟨rfl, rfl⟩
  · rcases bc with msg | fields
    · exact ⟨rfl, rfl⟩
    · exact ⟨rfl, rfl⟩

end ACDF
